import Mathlib

/-!
Verification development for the expidite edge data-collection runtime.

Shallow embedding of the core subsystems named by the specification:
the EdgeOrchestrator status state machine (edge_orchestrator.py), the
CloudConnector append path and the AsyncCloudConnector retry workers
(cloud_connector.py), the DPworker per-tick edge loop
(dp_worker_thread.py), and the Sensor backpressure guard (sensor.py,
utils.py).  Each definition is translated from the corresponding Python
function; comments reference the source file and function.
-/

namespace Expidite

/-! ### Orchestrator state machine (edge_orchestrator.py) -/

/-- OrchestratorStatus enum from edge_orchestrator.py. -/
inductive OrchestratorStatus
  | STOPPED
  | STARTING
  | RUNNING
  | STOPPING
deriving DecidableEq, Repr

/-- Thread id of the DeviceHealth system sensor created by
reset_orchestrator_state. -/
def deviceHealthId : Nat := 0

/-- Thread id of the StatTracker system sensor created by
reset_orchestrator_state. -/
def statTrackerId : Nat := 1

/-- State owned by the EdgeOrchestrator singleton: the status field, the
managed sensor and DPworker thread collections, and the two flag files
used for cross-process signalling. -/
structure OrchState where
  status : OrchestratorStatus
  sensors : List Nat
  dpworkers : List Nat
  stopFlag : Bool
  restartFlag : Bool
deriving DecidableEq, Repr

/-- Observable side effects of one orchestrator operation: the number of
warning-level log entries, the thread ids joined, and whether the
operation raised an exception. -/
structure OrchEvents where
  warnings : Nat
  joins : List Nat
  raised : Bool
deriving DecidableEq, Repr

/-- EdgeOrchestrator.reset_orchestrator_state: clears the thread
collections and re-adds the DeviceHealth and StatTracker system sensors
with their DPworkers. -/
def reset_orchestrator_state (s : OrchState) : OrchState :=
  { s with sensors := [deviceHealthId, statTrackerId],
           dpworkers := [deviceHealthId, statTrackerId] }

/-- Orchestrator state after EdgeOrchestrator.__init__: status STOPPED,
then reset_orchestrator_state. -/
def initialOrchState : OrchState :=
  reset_orchestrator_state
    { status := .STOPPED, sensors := [], dpworkers := [],
      stopFlag := false, restartFlag := false }

/-- EdgeOrchestrator.start_all.  Returns the new state, the successive
values assigned to the status field, and the observable events.  If the
status is not STOPPED the call warns and returns; otherwise it moves to
STARTING, clears the stop and restart flag files, starts the device
manager, DPworkers and sensors, and moves to RUNNING. -/
def start_all (s : OrchState) : OrchState × List OrchestratorStatus × OrchEvents :=
  if s.status ≠ OrchestratorStatus.STOPPED then
    (s, [], { warnings := 1, joins := [], raised := false })
  else
    ({ s with status := .RUNNING, stopFlag := false, restartFlag := false },
     [.STARTING, .RUNNING],
     { warnings := 0, joins := [], raised := false })

/-- EdgeOrchestrator.stop_all.  If the status is not RUNNING the call
warns, resets the collections and returns with the status unchanged.
Otherwise it moves to STOPPING, sets or clears the flag files depending
on the restart intent, stops and joins every sensor then every DPworker,
flushes the journals, resets the collections and moves to STOPPED. -/
def stop_all (s : OrchState) (restart : Bool) :
    OrchState × List OrchestratorStatus × OrchEvents :=
  if s.status ≠ OrchestratorStatus.RUNNING then
    (reset_orchestrator_state s, [],
     { warnings := 1, joins := [], raised := false })
  else
    let s1 : OrchState := { s with status := .STOPPING }
    let s2 : OrchState :=
      if restart then { s1 with stopFlag := false, restartFlag := false }
      else { s1 with stopFlag := true, restartFlag := false }
    let s3 := reset_orchestrator_state s2
    ({ s3 with status := .STOPPED },
     [.STOPPING, .STOPPED],
     { warnings := 0, joins := s.sensors ++ s.dpworkers, raised := false })

/-- One external call into the orchestrator: start_all or stop_all. -/
inductive OrchOp
  | start
  | stop (restart : Bool)
deriving DecidableEq, Repr

/-- Apply one operation, keeping the state and the status trace. -/
def applyOp (s : OrchState) : OrchOp → OrchState × List OrchestratorStatus
  | .start => ((start_all s).1, (start_all s).2.1)
  | .stop restart => ((stop_all s restart).1, (stop_all s restart).2.1)

/-- The sequence of values taken by the status field over a sequence of
start_all and stop_all calls. -/
def statusTrace (s : OrchState) : List OrchOp → List OrchestratorStatus
  | [] => []
  | op :: ops => (applyOp s op).2 ++ statusTrace (applyOp s op).1 ops

/-- The allowed status transitions: stutter, or one step along the cycle
STOPPED to STARTING to RUNNING to STOPPING to STOPPED. -/
def cycleOk (a b : OrchestratorStatus) : Bool :=
  decide (a = b) ||
  (decide (a = OrchestratorStatus.STOPPED) && decide (b = OrchestratorStatus.STARTING)) ||
  (decide (a = OrchestratorStatus.STARTING) && decide (b = OrchestratorStatus.RUNNING)) ||
  (decide (a = OrchestratorStatus.RUNNING) && decide (b = OrchestratorStatus.STOPPING)) ||
  (decide (a = OrchestratorStatus.STOPPING) && decide (b = OrchestratorStatus.STOPPED))

/-! ### load_config (edge_orchestrator.py) -/

/-- A Python value returned by the dp_trees_create_method callable: the
None object, a list of DPtree objects (abstracted to ids), or some other
non-list value with its truthiness. -/
inductive PyValue
  | pyNone
  | pyList (trees : List Nat)
  | nonList (truthy : Bool)
deriving DecidableEq, Repr

/-- Python falsiness, as tested by the `if not dp_trees` check. -/
def pyFalsy : PyValue → Bool
  | .pyNone => true
  | .pyList ts => ts.isEmpty
  | .nonList truthy => !truthy

/-- The Python exception that propagates out of a call. -/
inductive PyError
  | valueError (msg : String)
  | attributeError (msg : String)
deriving DecidableEq, Repr

/-- EdgeOrchestrator._safe_call_create_method.  The input is none when
the dp_trees_create_method is unset, otherwise the value the callable
returned.  The source checks, in order: create_method is None (raise
ValueError); `not dp_trees` (raise ValueError); `not isinstance(dp_trees,
list)` - but on that path the error log message evaluates
`dp_trees.__type__`, an attribute no Python object has, so an
AttributeError is raised before the ValueError statement is reached. -/
def safe_call_create_method : Option PyValue → Except PyError (List Nat)
  | none => .error (.valueError "create_method not defined")
  | some v =>
    if pyFalsy v then .error (.valueError "No sensors created")
    else
      match v with
      | .pyList ts => .ok ts
      | _ => .error (.attributeError "object has no attribute __type__")

/-- The sensor and DPworker collections mutated by load_config. -/
structure OrchCollections where
  sensors : List Nat
  dpworkers : List Nat
deriving DecidableEq, Repr

/-- The per-tree loop inside EdgeOrchestrator.load_config: raise
ValueError on a duplicate sensor, otherwise append the sensor and a new
DPworker for the tree. -/
def loadTrees : OrchCollections → List Nat → OrchCollections × Option PyError
  | c, [] => (c, none)
  | c, t :: ts =>
    if t ∈ c.sensors then (c, some (.valueError "Sensor already added"))
    else loadTrees { sensors := c.sensors ++ [t], dpworkers := c.dpworkers ++ [t] } ts

/-- EdgeOrchestrator.load_config: call _safe_call_create_method, then add
each returned tree.  An exception from the create call propagates before
the loop runs, leaving the collections unchanged. -/
def load_config (c : OrchCollections) (created : Option PyValue) :
    OrchCollections × Option PyError :=
  match safe_call_create_method created with
  | .error e => (c, some e)
  | .ok trees => loadTrees c trees

/-! ### CloudConnector append path (cloud_connector.py)

A CSV line is modelled as its parsed field list (csv.reader output); a
blob or local file is the list of its lines, the first line being the
header row.  The blob store maps (container, blob name) pairs to
contents; _validated_append_files is keyed by the file name alone, as in
the source. -/

/-- One CSV line, parsed into its fields. -/
abbrev Row := List String

/-- The contents of a blob or local file: its lines in order. -/
abbrev Blob := List Row

/-- A blob is addressed by container name and blob name. -/
abbrev BlobKey := String × String

/-- Look up a blob in the store. -/
def lookupBlob : List (BlobKey × Blob) → BlobKey → Option Blob
  | [], _ => none
  | (k0, b0) :: rest, k => if k0 = k then some b0 else lookupBlob rest k

/-- Write a blob, replacing any previous contents under the same key. -/
def setBlob : List (BlobKey × Blob) → BlobKey → Blob → List (BlobKey × Blob)
  | [], k, b => [(k, b)]
  | (k0, b0) :: rest, k, b =>
    if k0 = k then (k, b) :: rest else (k0, b0) :: setBlob rest k b

/-- Cloud-side state of a CloudConnector: the blob store and the
_validated_append_files set. -/
structure CCState where
  store : List (BlobKey × Blob)
  validated : List String
deriving DecidableEq, Repr

/-- Local filesystem visible to append_to_cloud: file name to lines. -/
structure LocalFS where
  files : List (String × Blob)
deriving DecidableEq, Repr

/-- Read a local file; none when the file does not exist. -/
def fsLookup (fs : LocalFS) : String → Option Blob :=
  fun name => (fs.files.find? (fun p => p.1 = name)).map (fun p => p.2)

/-- Unlink a local file. -/
def fsDelete (fs : LocalFS) (name : String) : LocalFS :=
  { files := fs.files.filter (fun p => decide (p.1 ≠ name)) }

/-- CloudConnector._headers_match: false when the remote file has no
contents or the local header line is blank, otherwise equality of the
csv-parsed header rows.  (The source reads the first 1000 characters of
the blob to obtain its first line; that read is modelled as taking the
first line directly.) -/
def headers_match (remote : Blob) (localHeader : Row) : Bool :=
  match remote.head? with
  | none => false
  | some h => if localHeader = [] then false else decide (h = localHeader)

/-- Position of a column name in a header row (first match), as used by
pandas column alignment. -/
def colIndex (c : String) : Row → Option Nat
  | [] => none
  | h :: t => if h = c then some 0 else (colIndex c t).map (· + 1)

/-- Value of column c in a row that was read under the given header;
a column absent from the header reads as NaN, written back as the empty
string by to_csv. -/
def colValue (header row : Row) (c : String) : String :=
  match colIndex c header with
  | some i => row.getD i ""
  | none => ""

/-- Column set of pd.concat of two frames: the first header followed by
the columns of the second that are new. -/
def mergedColumns (h1 h2 : Row) : Row :=
  h1 ++ h2.filter (fun c => decide (c ∉ h1))

/-- Re-align one row from its original header to the output column
order, as pandas does when concatenating and writing to_csv. -/
def reindexRow (oldHeader outCols : Row) (r : Row) : Row :=
  outCols.map (colValue oldHeader r)

/-- The merge performed on the header-mismatch path of
_append_data_to_blob: pd.read_csv both files, pd.concat, then to_csv
with the requested column order (all merged columns when col_order is
None), headers included. -/
def mergeCsv (remote localLines : Blob) (colOrder : Option Row) : Blob :=
  let hR := remote.headD []
  let hL := localLines.headD []
  let outCols := colOrder.getD (mergedColumns hR hL)
  outCols :: (remote.tail.map (reindexRow hR outCols) ++
              localLines.tail.map (reindexRow hL outCols))

/-- CloudConnector._append_data_to_blob.  Branches as in the source: if
the blob does not exist, create it with the full lines (header
included); else if the file name is already validated, append the lines
minus the header; else compare headers - on a match append the lines
minus the header, on a mismatch download the remote blob, merge with
pandas and rewrite the blob wholesale.  On the mismatch path, an empty
remote download makes pd.read_csv raise (caught, returning false with no
state change), and a col_order naming a column absent from the merged
frame makes to_csv raise likewise. -/
def append_data_to_blob (st : CCState) (dstContainer dstFile : String)
    (linesToAppend : Blob) (colOrder : Option Row) : CCState × Bool :=
  match lookupBlob st.store (dstContainer, dstFile) with
  | none =>
    ({ store := setBlob st.store (dstContainer, dstFile) linesToAppend,
       validated := dstFile :: st.validated }, true)
  | some remote =>
    if dstFile ∈ st.validated then
      ({ st with
         store := setBlob st.store (dstContainer, dstFile) (remote ++ linesToAppend.tail) },
       true)
    else if headers_match remote (linesToAppend.headD []) then
      ({ store := setBlob st.store (dstContainer, dstFile) (remote ++ linesToAppend.tail),
         validated := dstFile :: st.validated }, true)
    else if remote.isEmpty then
      (st, false)
    else
      let outCols := (colOrder.getD (mergedColumns (remote.headD []) (linesToAppend.headD [])))
      if outCols.all (fun c => decide (c ∈ mergedColumns (remote.headD []) (linesToAppend.headD []))) then
        ({ store := setBlob st.store (dstContainer, dstFile)
                      (mergeCsv remote linesToAppend colOrder),
           validated := dstFile :: st.validated }, true)
      else
        (st, false)

/-- CloudConnector.append_to_cloud (synchronous).  Reads the local file
(a missing file raises, caught, returning false); returns false without
writing when the file holds only its header line; otherwise calls
_append_data_to_blob and, on success with delete_src, unlinks the local
file. -/
def cc_append_to_cloud (st : CCState) (fs : LocalFS) (dstContainer srcFile : String)
    (deleteSrc : Bool) (colOrder : Option Row) : CCState × LocalFS × Bool :=
  match fsLookup fs srcFile with
  | none => (st, fs, false)
  | some localLines =>
    if localLines.length = 1 then (st, fs, false)
    else
      let r := append_data_to_blob st dstContainer srcFile localLines colOrder
      (r.1, if r.2 && deleteSrc then fsDelete fs srcFile else fs, r.2)

/-- LocalCloudConnector.append_to_cloud: same one-line guard, then a
plain filesystem-backed create-or-append with the header dropped when
the blob already exists. -/
def lcc_append_to_cloud (cloud : List (BlobKey × Blob)) (fs : LocalFS)
    (dstContainer srcFile : String) (deleteSrc : Bool) :
    List (BlobKey × Blob) × LocalFS × Bool :=
  match fsLookup fs srcFile with
  | none => (cloud, fs, false)
  | some localLines =>
    if localLines.length = 1 then (cloud, fs, false)
    else
      let newBlob :=
        match lookupBlob cloud (dstContainer, srcFile) with
        | none => localLines
        | some b => b ++ localLines.tail
      let cloud2 := setBlob cloud (dstContainer, srcFile) newBlob
      if deleteSrc then (cloud2, fsDelete fs srcFile, true)
      else (cloud2, fs, true)

/-! ### AsyncCloudConnector (cloud_connector.py) -/

/-- AsyncAppend queue item. -/
structure AsyncAppendItem where
  dstContainer : String
  srcFname : String
  deleteSrc : Bool
  data : Blob
  iteration : Nat
  colOrder : Option Row
deriving DecidableEq, Repr

/-- AsyncUpload queue item. -/
structure AsyncUploadItem where
  dstContainer : String
  srcFiles : List String
  deleteSrc : Bool
  iteration : Nat
deriving DecidableEq, Repr

/-- AsyncCloudConnector.append_to_cloud: validate the file exists, read
its lines synchronously, return false when only the header line is
present, optionally unlink the source synchronously, then enqueue an
AsyncAppend item with iteration 0. -/
def acc_append_to_cloud (fs : LocalFS) (queue : List AsyncAppendItem)
    (dstContainer srcFile : String) (deleteSrc : Bool) (colOrder : Option Row) :
    LocalFS × List AsyncAppendItem × Bool :=
  match fsLookup fs srcFile with
  | none => (fs, queue, false)
  | some data =>
    if data.length = 1 then (fs, queue, false)
    else
      let fs2 := if deleteSrc then fsDelete fs srcFile else fs
      (fs2,
       queue ++ [{ dstContainer := dstContainer, srcFname := srcFile,
                   deleteSrc := deleteSrc, data := data, iteration := 0,
                   colOrder := colOrder }],
       true)

/-- Outcome of one AsyncCloudConnector._async_append worker invocation:
the re-enqueued item if any, the backoff sleep performed in seconds, and
whether a permanent-failure error log entry was emitted. -/
structure AppendStepResult where
  requeued : Option AsyncAppendItem
  sleepSeconds : Nat
  errorLogged : Bool
deriving DecidableEq, Repr

/-- AsyncCloudConnector._async_append: the succeeded flag is the result
of the inner _append_data_to_blob call (false also when that call
raised).  On failure: past iteration 100 the item is dropped with an
error log; otherwise the iteration counter is incremented, the item is
re-enqueued, and the worker sleeps 2 times the new iteration count. -/
def async_append_step (item : AsyncAppendItem) (succeeded : Bool) : AppendStepResult :=
  if succeeded then
    { requeued := none, sleepSeconds := 0, errorLogged := false }
  else if 100 < item.iteration then
    { requeued := none, sleepSeconds := 0, errorLogged := true }
  else
    { requeued := some { item with iteration := item.iteration + 1 },
      sleepSeconds := 2 * (item.iteration + 1), errorLogged := false }

/-- Outcome of one AsyncCloudConnector._async_upload worker invocation. -/
structure UploadStepResult where
  requeued : Option AsyncUploadItem
  sleepSeconds : Nat
deriving DecidableEq, Repr

/-- AsyncCloudConnector._async_upload: when the underlying upload
raises, re-verify which source files still exist (fileStillThere),
drop the missing ones, and if any remain re-enqueue the item with the
iteration counter incremented and sleep 2 times the new iteration count;
with no surviving file the item is not re-enqueued. -/
def async_upload_step (item : AsyncUploadItem) (uploadRaised : Bool)
    (fileStillThere : String → Bool) : UploadStepResult :=
  if !uploadRaised then
    { requeued := none, sleepSeconds := 0 }
  else
    let verified := item.srcFiles.filter fileStillThere
    if verified.isEmpty then
      { requeued := none, sleepSeconds := 0 }
    else
      { requeued := some { item with srcFiles := verified, iteration := item.iteration + 1 },
        sleepSeconds := 2 * (item.iteration + 1) }

/-! ### DPworker tick (dp_worker_thread.py) -/

/-- One edge of the DPtree as processed by DPworker.edge_run, together
with the outcome of processing it this tick: sinkId identifies the sink
DataProcessor, streamIndex is the source stream index passed to
_scorp_stat, raises says whether the per-edge body raised an exception,
and duration is the elapsed processing time observed for the edge. -/
structure EdgeSpec where
  sinkId : Nat
  streamIndex : Nat
  raises : Bool
  duration : Nat
deriving DecidableEq, Repr

/-- Observable outcome of one DPworker.edge_run tick: the sink ids of
the edges handled in order, the SCORP statistics recorded via
_scorp_stat as (sinkId, streamIndex, duration) triples, and the sink ids
whose processing raised and was logged. -/
structure TickResult where
  processed : List Nat
  scorp : List (Nat × Nat × Nat)
  errors : List Nat
deriving DecidableEq, Repr

/-- The per-tick for-loop of DPworker.edge_run: each edge is handled
inside a try block that invokes the DataProcessor and then records the
SCORP statistic; an exception anywhere in the body is caught and logged,
and the loop moves on to the next edge.  Because _scorp_stat is called
inside the try block after process_data, an edge whose processing raises
records no SCORP statistic. -/
def edge_run_tick : List EdgeSpec → TickResult
  | [] => { processed := [], scorp := [], errors := [] }
  | e :: es =>
    let rest := edge_run_tick es
    if e.raises then
      { processed := e.sinkId :: rest.processed,
        scorp := rest.scorp,
        errors := e.sinkId :: rest.errors }
    else
      { processed := e.sinkId :: rest.processed,
        scorp := (e.sinkId, e.streamIndex, e.duration) :: rest.scorp,
        errors := rest.errors }

/-- The while-loop of DPworker.edge_run: each tick runs to completion
and the loop proceeds to the next tick regardless of per-edge errors. -/
def edge_run (ticks : List (List EdgeSpec)) : List TickResult :=
  ticks.map edge_run_tick

/-! ### Sensor backpressure guard (sensor.py, utils.py) -/

/-- Sensor.continue_recording.  The pressure list holds the successive
outcomes of utils.failing_to_keep_up(); stop is whether stop_requested
is set; maxTimer is my_device.max_recording_timer.  While the check
returns true the call performs stop_requested.wait(maxTimer) and checks
again; when a check returns false the loop exits and the call returns
the negation of the stop flag.  The result is none when every supplied
check returned true - the call is still blocked in the backpressure
loop.  The returned list records the timeout of each wait performed. -/
def continue_recording (stop : Bool) (maxTimer : Nat) :
    List Bool → Option (Bool × List Nat)
  | [] => none
  | false :: _ => some (!stop, [])
  | true :: rest =>
    (continue_recording stop maxTimer rest).map (fun r => (r.1, maxTimer :: r.2))

/-- Number of leading true readings in a pressure list: the number of
backpressure waits continue_recording performs before returning. -/
def leadingPressure : List Bool → Nat
  | true :: rest => leadingPressure rest + 1
  | _ => 0

/-! ### Helper lemmas -/

theorem lookup_setBlob (store : List (BlobKey × Blob)) (k : BlobKey) (b : Blob) :
    lookupBlob (setBlob store k b) k = some b := by
  induction store with
  | nil => simp [setBlob, lookupBlob]
  | cons p rest ih =>
    by_cases h : p.1 = k
    · simp [setBlob, lookupBlob, h]
    · simp [setBlob, lookupBlob, h, ih]

theorem chain_append_getLastD {α : Type} (R : α → α → Prop) :
    ∀ (t : List α) (a : α) (u : List α),
      List.Chain R a t → List.Chain R (t.getLastD a) u → List.Chain R a (t ++ u) := by
  intro t
  induction t with
  | nil => intro a u _ h2; simpa using h2
  | cons x t2 ih =>
    intro a u h1 h2
    cases h1 with
    | cons hax h1 =>
      exact List.Chain.cons hax (ih x u h1 (by rwa [List.getLastD_cons] at h2))

theorem applyOp_chain (s : OrchState) (op : OrchOp) :
    List.Chain (fun a b => cycleOk a b = true) s.status (applyOp s op).2 ∧
    (applyOp s op).1.status = ((applyOp s op).2).getLastD s.status := by
  cases op with
  | start =>
    by_cases h : s.status = OrchestratorStatus.STOPPED
    · rw [applyOp, start_all, if_neg (by simp [h])]
      refine ⟨?_, rfl⟩
      rw [h]
      exact List.Chain.cons (by decide) (List.Chain.cons (by decide) List.Chain.nil)
    · rw [applyOp, start_all, if_pos h]
      exact ⟨List.Chain.nil, rfl⟩
  | stop restart =>
    by_cases h : s.status = OrchestratorStatus.RUNNING
    · rw [applyOp, stop_all, if_neg (by simp [h])]
      refine ⟨?_, rfl⟩
      rw [h]
      exact List.Chain.cons (by decide) (List.Chain.cons (by decide) List.Chain.nil)
    · rw [applyOp, stop_all, if_pos h]
      exact ⟨List.Chain.nil, rfl⟩

/-! ### Claim theorems -/

/-- C1: over every sequence of start_all and stop_all calls, the status
field (an OrchestratorStatus, hence always one of the four defined
values) changes only along the cycle STOPPED to STARTING to RUNNING to
STOPPING to STOPPED: every pair of successive status values is either a
stutter or one step of the cycle, and in particular the step from
RUNNING directly to STOPPED is not an allowed transition. -/
theorem orchestrator_status_cycle (s : OrchState) (ops : List OrchOp) :
    List.Chain (fun a b => cycleOk a b = true) s.status (statusTrace s ops) ∧
    cycleOk OrchestratorStatus.RUNNING OrchestratorStatus.STOPPED = false := by
  refine ⟨?_, by decide⟩
  induction ops generalizing s with
  | nil => exact List.Chain.nil
  | cons op ops ih =>
    rw [statusTrace]
    have h := applyOp_chain s op
    have h2 := ih (applyOp s op).1
    rw [h.2] at h2
    exact chain_append_getLastD _ _ _ _ h.1 h2

/-- C9: stop_all on an orchestrator whose status is not RUNNING (in
particular an already-STOPPED one) logs a warning, raises no exception,
joins no thread, assigns no status value and leaves the status field
unchanged. -/
theorem stop_all_noop_when_not_running (s : OrchState) (restart : Bool)
    (h : s.status ≠ OrchestratorStatus.RUNNING) :
    (stop_all s restart).1.status = s.status ∧
    (stop_all s restart).2.1 = [] ∧
    (stop_all s restart).2.2.warnings = 1 ∧
    (stop_all s restart).2.2.joins = [] ∧
    (stop_all s restart).2.2.raised = false := by
  rw [stop_all, if_pos h]
  exact ⟨rfl, rfl, rfl, rfl, rfl⟩

/-- C9 witness: stop_all on the freshly initialised (STOPPED)
orchestrator is such a no-op. -/
theorem stop_all_noop_when_not_running_witness :
    (stop_all initialOrchState false).1.status = initialOrchState.status ∧
    (stop_all initialOrchState false).2.1 = [] ∧
    (stop_all initialOrchState false).2.2.warnings = 1 ∧
    (stop_all initialOrchState false).2.2.joins = [] ∧
    (stop_all initialOrchState false).2.2.raised = false :=
  stop_all_noop_when_not_running initialOrchState false (by decide)

/-- C5: evaluation of load_config on its three failure inputs.  An unset
create method and an empty returned list raise the intended ValueError
and leave the collections unchanged; but a truthy non-list return
raises AttributeError - the log f-string evaluates dp_trees.__type__,
which no Python object has - so the intended ValueError configuration
error on the following line is unreachable, contrary to the function
docstring ("Raises ValueError ...").  The collections stay unchanged in
all three cases. -/
theorem load_config_error_paths :
    (load_config { sensors := [], dpworkers := [] } none
      = ({ sensors := [], dpworkers := [] },
         some (PyError.valueError "create_method not defined"))) ∧
    (load_config { sensors := [], dpworkers := [] } (some (PyValue.pyList []))
      = ({ sensors := [], dpworkers := [] },
         some (PyError.valueError "No sensors created"))) ∧
    (load_config { sensors := [], dpworkers := [] } (some (PyValue.nonList true))
      = ({ sensors := [], dpworkers := [] },
         some (PyError.attributeError "object has no attribute __type__"))) :=
  ⟨rfl, rfl, rfl⟩

/-- C3: a failed _async_append whose iteration counter is at most 100 is
re-enqueued with the counter incremented by one after a backoff sleep of
2 times the new iteration count in seconds; once the counter exceeds
100, the item is dropped with an error-level log entry and is not
re-enqueued. -/
theorem async_append_retry_spec (item : AsyncAppendItem) (succeeded : Bool)
    (hfail : succeeded = false) :
    (item.iteration ≤ 100 →
      (async_append_step item succeeded).requeued
        = some { item with iteration := item.iteration + 1 } ∧
      (async_append_step item succeeded).sleepSeconds = 2 * (item.iteration + 1) ∧
      (async_append_step item succeeded).errorLogged = false) ∧
    (100 < item.iteration →
      (async_append_step item succeeded).requeued = none ∧
      (async_append_step item succeeded).errorLogged = true) := by
  subst hfail
  constructor
  · intro hle
    rw [async_append_step, if_neg (by simp), if_neg (by omega)]
    exact ⟨rfl, rfl, rfl⟩
  · intro hlt
    rw [async_append_step, if_neg (by simp), if_pos hlt]
    exact ⟨rfl, rfl⟩

/-- C3 witness: a failing item at iteration 0 is re-enqueued at
iteration 1 with a 2 second backoff and no error log. -/
theorem async_append_retry_spec_witness :
    (async_append_step { dstContainer := "c", srcFname := "f", deleteSrc := false,
                         data := [], iteration := 0, colOrder := none } false).requeued
      = some { dstContainer := "c", srcFname := "f", deleteSrc := false,
               data := [], iteration := 1, colOrder := none } ∧
    (async_append_step { dstContainer := "c", srcFname := "f", deleteSrc := false,
                         data := [], iteration := 0, colOrder := none } false).sleepSeconds = 2 :=
  (fun h => ⟨h.1, h.2.1⟩)
    ((async_append_retry_spec _ false rfl).1 (by decide))

/-- C4: a failed _async_upload drops the source files that no longer
exist; if at least one survives, the item is re-enqueued with exactly
the surviving files and the iteration counter incremented by one,
followed by a backoff sleep of 2 times the new iteration count; an item
all of whose source files have vanished is not re-enqueued, and a
vanished file never appears in a re-enqueued item. -/
theorem async_upload_retry_spec (item : AsyncUploadItem) (fileStillThere : String → Bool) :
    (item.srcFiles.filter fileStillThere ≠ [] →
      (async_upload_step item true fileStillThere).requeued
        = some { item with srcFiles := item.srcFiles.filter fileStillThere,
                           iteration := item.iteration + 1 } ∧
      (async_upload_step item true fileStillThere).sleepSeconds
        = 2 * (item.iteration + 1)) ∧
    (item.srcFiles.filter fileStillThere = [] →
      (async_upload_step item true fileStillThere).requeued = none) ∧
    (∀ f, fileStillThere f = false → ∀ item2,
      (async_upload_step item true fileStillThere).requeued = some item2 →
      f ∉ item2.srcFiles) := by
  refine ⟨?_, ?_, ?_⟩
  · intro hne
    rw [async_upload_step, if_neg (by simp),
        if_neg (by simpa [List.isEmpty_iff] using hne)]
    exact ⟨rfl, rfl⟩
  · intro hnil
    rw [async_upload_step, if_neg (by simp),
        if_pos (by simpa [List.isEmpty_iff] using hnil)]
  · intro f hf item2 hreq
    by_cases hnil : item.srcFiles.filter fileStillThere = []
    · rw [async_upload_step, if_neg (by simp),
          if_pos (by simpa [List.isEmpty_iff] using hnil)] at hreq
      cases hreq
    · rw [async_upload_step, if_neg (by simp),
          if_neg (by simpa [List.isEmpty_iff] using hnil)] at hreq
      have h2 := Option.some.inj hreq
      intro hmem
      rw [← h2] at hmem
      have := List.of_mem_filter hmem
      rw [hf] at this
      cases this

/-- C4 witness: an item with one vanished and one surviving file is
re-enqueued with only the survivor at iteration 1 and a 2 second sleep,
and the vanished file is not in the re-enqueued item. -/
theorem async_upload_retry_spec_witness :
    (async_upload_step { dstContainer := "c", srcFiles := ["gone", "kept"],
                         deleteSrc := false, iteration := 0 } true
        (fun f => f == "kept")).requeued
      = some { dstContainer := "c", srcFiles := ["kept"],
               deleteSrc := false, iteration := 1 } ∧
    (async_upload_step { dstContainer := "c", srcFiles := ["gone", "kept"],
                         deleteSrc := false, iteration := 0 } true
        (fun f => f == "kept")).sleepSeconds = 2 :=
  (async_upload_retry_spec { dstContainer := "c", srcFiles := ["gone", "kept"],
                             deleteSrc := false, iteration := 0 }
      (fun f => f == "kept")).1 (by decide)

/-- C8: continue_recording returns only after a failing-to-keep-up check
comes back false, performing one stop_requested.wait of up to
max_recording_timer seconds per true check (it stays blocked - result
none - while every check returns true, rather than returning true); on
return the result is false exactly when stop has been requested and true
otherwise. -/
theorem continue_recording_spec (stop : Bool) (maxTimer : Nat) (pressure : List Bool) :
    (continue_recording stop maxTimer pressure = none ↔ ∀ b ∈ pressure, b = true) ∧
    (∀ r w, continue_recording stop maxTimer pressure = some (r, w) →
      r = !stop ∧ w = List.replicate (leadingPressure pressure) maxTimer) := by
  induction pressure with
  | nil =>
    refine ⟨by simp [continue_recording], ?_⟩
    intro r w h
    cases h
  | cons b rest ih =>
    cases b with
    | false =>
      refine ⟨by simp [continue_recording], ?_⟩
      intro r w h
      rw [continue_recording] at h
      injection h with h2
      injection h2 with hr hw
      exact ⟨hr.symm, hw.symm⟩
    | true =>
      constructor
      · rw [continue_recording]
        rw [Option.map_eq_none']
        rw [ih.1]
        simp
      · intro r w h
        rw [continue_recording] at h
        rcases Option.map_eq_some'.mp h with ⟨⟨r0, w0⟩, h0, h1⟩
        have h2 := ih.2 r0 w0 h0
        simp only [Prod.mk.injEq] at h1
        refine ⟨?_, ?_⟩
        · rw [← h1.1]
          exact h2.1
        · rw [← h1.2]
          show maxTimer :: w0 = _
          rw [h2.2]
          rfl

/-- C8 witness: with stop not requested, one true pressure reading then
a false one, the call waits once for the full timer and returns true. -/
theorem continue_recording_spec_witness :
    ((true : Bool) = !false) ∧
    ([180] = List.replicate (leadingPressure [true, false]) 180) :=
  (continue_recording_spec false 180 [true, false]).2 true [180] rfl

/-- C6: within one DPworker tick, every edge is handled in registration
order regardless of exceptions in earlier edges, every edge whose
processing raises has its exception caught and logged, and the loop
proceeds normally to the next tick. -/
theorem edge_run_partial_failure_isolation (edges : List EdgeSpec) :
    (edge_run_tick edges).processed = edges.map (fun e => e.sinkId) ∧
    (∀ e ∈ edges, e.raises = true → e.sinkId ∈ (edge_run_tick edges).errors) ∧
    (∀ ticks, edge_run (edges :: ticks) = edge_run_tick edges :: edge_run ticks) := by
  refine ⟨?_, ?_, fun ticks => rfl⟩
  · induction edges with
    | nil => rfl
    | cons e es ih =>
      by_cases h : e.raises <;> simp [edge_run_tick, h, ih]
  · induction edges with
    | nil =>
      intro e he
      cases he
    | cons a es ih =>
      intro e he hr
      rcases List.mem_cons.mp he with h1 | hmem
      · subst h1
        simp [edge_run_tick, hr]
      · by_cases ha : a.raises <;> simp only [edge_run_tick, ha, if_pos, if_neg,
          Bool.false_eq_true, ite_false, ite_true]
        · exact List.mem_cons_of_mem _ (ih e hmem hr)
        · exact ih e hmem hr

/-- C6 witness: in a tick where the first of two edges raises, both
edges are handled in order and the failing one is logged. -/
theorem edge_run_partial_failure_isolation_witness :
    (edge_run_tick
      [{ sinkId := 1, streamIndex := 0, raises := true, duration := 4 },
       { sinkId := 2, streamIndex := 0, raises := false, duration := 6 }]).processed
      = [1, 2] ∧
    1 ∈ (edge_run_tick
      [{ sinkId := 1, streamIndex := 0, raises := true, duration := 4 },
       { sinkId := 2, streamIndex := 0, raises := false, duration := 6 }]).errors :=
  ⟨(edge_run_partial_failure_isolation _).1,
   (edge_run_partial_failure_isolation _).2.1
     { sinkId := 1, streamIndex := 0, raises := true, duration := 4 }
     (by decide) rfl⟩

/-- C7 counterexample: a tick whose single edge raises during processing
handles the edge but records no SCORP statistic for it, contradicting
the claim that the duration and count are recorded regardless of whether
processing raised an exception. -/
theorem edge_run_scorp_missing_on_error :
    (edge_run_tick
      [{ sinkId := 7, streamIndex := 0, raises := true, duration := 5 }]).processed = [7] ∧
    (edge_run_tick
      [{ sinkId := 7, streamIndex := 0, raises := true, duration := 5 }]).scorp = [] :=
  ⟨rfl, rfl⟩

/-- C7 amended: the processing duration and count are recorded against
the sink node SCORP stream exactly for the edges whose processing
completed without raising an exception; an edge whose processing raises
records no SCORP statistic that tick, because _scorp_stat is called
inside the per-edge try block after process_data. -/
theorem edge_run_scorp_on_success (edges : List EdgeSpec) :
    (edge_run_tick edges).scorp =
      (edges.filter (fun e => !e.raises)).map
        (fun e => (e.sinkId, e.streamIndex, e.duration)) := by
  induction edges with
  | nil => rfl
  | cons e es ih =>
    by_cases h : e.raises <;> simp [edge_run_tick, h, ih]

/-- C10: append_to_cloud on a local file holding exactly one line (the
header row with no data rows) returns false, writes nothing to the blob
store, enqueues nothing, and does not delete the source file even when
delete_src is set - on the synchronous CloudConnector, the
AsyncCloudConnector and the LocalCloudConnector alike. -/
theorem append_one_line_noop (st : CCState) (cloud : List (BlobKey × Blob))
    (fs : LocalFS) (queue : List AsyncAppendItem) (dstContainer src : String)
    (deleteSrc : Bool) (colOrder : Option Row) (localLines : Blob)
    (hread : fsLookup fs src = some localLines) (hone : localLines.length = 1) :
    cc_append_to_cloud st fs dstContainer src deleteSrc colOrder = (st, fs, false) ∧
    acc_append_to_cloud fs queue dstContainer src deleteSrc colOrder = (fs, queue, false) ∧
    lcc_append_to_cloud cloud fs dstContainer src deleteSrc = (cloud, fs, false) := by
  refine ⟨?_, ?_, ?_⟩ <;>
    simp [cc_append_to_cloud, acc_append_to_cloud, lcc_append_to_cloud, hread, hone]

/-- C10 witness: a header-only journal file is not appended, enqueued or
deleted by any of the three connectors. -/
theorem append_one_line_noop_witness :
    cc_append_to_cloud { store := [], validated := [] }
        { files := [("j.csv", [["a", "b"]])] } "journals" "j.csv" true none
      = ({ store := [], validated := [] },
         { files := [("j.csv", [["a", "b"]])] }, false) ∧
    acc_append_to_cloud { files := [("j.csv", [["a", "b"]])] } []
        "journals" "j.csv" true none
      = ({ files := [("j.csv", [["a", "b"]])] }, [], false) ∧
    lcc_append_to_cloud [] { files := [("j.csv", [["a", "b"]])] }
        "journals" "j.csv" true
      = ([], { files := [("j.csv", [["a", "b"]])] }, false) :=
  append_one_line_noop { store := [], validated := [] } []
    { files := [("j.csv", [["a", "b"]])] } [] "journals" "j.csv" true none
    [["a", "b"]] rfl rfl

/-! ### Lemmas about the pandas merge model -/

theorem colIndex_eq_none (c : String) (h : Row) (hn : c ∉ h) : colIndex c h = none := by
  induction h with
  | nil => rfl
  | cons x t ih =>
    have hxc : ¬ (x = c) := fun he => hn (he ▸ List.mem_cons_self x t)
    rw [colIndex, if_neg hxc, ih (fun hm => hn (List.mem_cons_of_mem _ hm))]
    rfl

theorem map_colValue_self : ∀ (h r : Row), h.Nodup → r.length = h.length →
    h.map (colValue h r) = r := by
  intro h
  induction h with
  | nil =>
    intro r _ hlen
    rw [List.length_eq_zero.mp hlen]
    rfl
  | cons c t ih =>
    intro r hnd hlen
    cases r with
    | nil => simp at hlen
    | cons v r2 =>
      have hct : c ∉ t := (List.nodup_cons.mp hnd).1
      have hndt : t.Nodup := (List.nodup_cons.mp hnd).2
      have hlen2 : r2.length = t.length := by simpa using hlen
      rw [List.map_cons]
      have hhead : colValue (c :: t) (v :: r2) c = v := by
        rw [colValue, colIndex, if_pos rfl]
        rfl
      have htail : ∀ x ∈ t, colValue (c :: t) (v :: r2) x = colValue t r2 x := by
        intro x hx
        have hxc : ¬ (c = x) := fun he => hct (he ▸ hx)
        rw [colValue, colValue, colIndex, if_neg hxc]
        cases hi : colIndex x t with
        | none => rfl
        | some i => rfl
      rw [hhead, List.map_congr_left htail, ih r2 hndt hlen2]

theorem mergedColumns_extend (h1 extra : Row) (hnd : (h1 ++ extra).Nodup) :
    mergedColumns h1 (h1 ++ extra) = h1 ++ extra := by
  have hdisj := (List.nodup_append.mp hnd).2.2
  rw [mergedColumns, List.filter_append]
  have e1 : h1.filter (fun c => decide (c ∉ h1)) = [] := by
    rw [List.filter_eq_nil_iff]
    intro a ha
    simp [ha]
  have e2 : extra.filter (fun c => decide (c ∉ h1)) = extra := by
    rw [List.filter_eq_self]
    intro a ha
    simp only [decide_eq_true_eq]
    exact fun hmem => hdisj hmem ha
  rw [e1, e2, List.nil_append]

theorem reindexRow_id (h r : Row) (hnd : h.Nodup) (hlen : r.length = h.length) :
    reindexRow h h r = r :=
  map_colValue_self h r hnd hlen

theorem reindexRow_extend (h1 extra r : Row) (hnd : (h1 ++ extra).Nodup)
    (hlen : r.length = h1.length) :
    reindexRow h1 (h1 ++ extra) r = r ++ List.replicate extra.length "" := by
  rw [reindexRow, List.map_append]
  have e1 : h1.map (colValue h1 r) = r :=
    map_colValue_self h1 r (List.nodup_append.mp hnd).1 hlen
  have e2 : extra.map (colValue h1 r) = List.replicate extra.length "" := by
    have hz : ∀ x ∈ extra, colValue h1 r x = "" := by
      intro x hx
      have hxn : x ∉ h1 := fun hmem => (List.nodup_append.mp hnd).2.2 hmem hx
      rw [colValue, colIndex_eq_none x h1 hxn]
    rw [List.map_congr_left hz, List.map_const']
  rw [e1, e2]

theorem all_mem_self (l : Row) : l.all (fun c => decide (c ∈ l)) = true := by
  rw [List.all_eq_true]
  intro c hc
  simpa using hc

/-- C2: append_to_cloud on a local CSV file with more than one line.
If the destination blob does not exist it is created containing exactly
the local lines, header included.  If the blob exists and its header row
equals the local header row, exactly the local non-header lines are
appended, so the header row is never duplicated.  If this is the first
write to the blob since startup and the headers differ - the local
header extending the remote one by extra columns, as in the remote
[a,b,c] / local [a,b,c,d] example - the blob is rewritten wholesale as
one header row followed by the old rows with the extra columns blank and
then the new rows with their values, i.e. exactly the union of the rows
under the merged schema. -/
theorem append_to_cloud_spec (st : CCState) (fs : LocalFS) (cont src : String)
    (deleteSrc : Bool) (hdr : Row) (rows : Blob)
    (hread : fsLookup fs src = some (hdr :: rows))
    (hrows : rows ≠ [])
    (hhdr : hdr ≠ []) :
    (lookupBlob st.store (cont, src) = none →
      (cc_append_to_cloud st fs cont src deleteSrc none).2.2 = true ∧
      lookupBlob (cc_append_to_cloud st fs cont src deleteSrc none).1.store (cont, src)
        = some (hdr :: rows)) ∧
    (∀ rrows, lookupBlob st.store (cont, src) = some (hdr :: rrows) →
      (cc_append_to_cloud st fs cont src deleteSrc none).2.2 = true ∧
      lookupBlob (cc_append_to_cloud st fs cont src deleteSrc none).1.store (cont, src)
        = some ((hdr :: rrows) ++ rows)) ∧
    (∀ rhdr rrows extra, lookupBlob st.store (cont, src) = some (rhdr :: rrows) →
      src ∉ st.validated → hdr = rhdr ++ extra → extra ≠ [] → hdr.Nodup →
      (∀ r ∈ rrows, r.length = rhdr.length) →
      (∀ r ∈ rows, r.length = hdr.length) →
      (cc_append_to_cloud st fs cont src deleteSrc none).2.2 = true ∧
      lookupBlob (cc_append_to_cloud st fs cont src deleteSrc none).1.store (cont, src)
        = some (hdr ::
            (rrows.map (fun r => r ++ List.replicate extra.length "") ++ rows))) := by
  have hlen1 : ¬ ((hdr :: rows).length = 1) := by
    simp [Nat.succ_inj, List.length_eq_zero, hrows]
  refine ⟨?_, ?_, ?_⟩
  · intro habs
    simp only [cc_append_to_cloud, hread, if_neg hlen1, append_data_to_blob, habs]
    exact ⟨by trivial, lookup_setBlob _ _ _⟩
  · intro rrows hlook
    simp only [cc_append_to_cloud, hread, if_neg hlen1, append_data_to_blob, hlook]
    by_cases hv : src ∈ st.validated
    · rw [if_pos hv]
      exact ⟨by trivial, lookup_setBlob _ _ _⟩
    · have hm : headers_match (hdr :: rrows) ((hdr :: rows).headD []) = true := by
        simp [headers_match, hhdr]
      rw [if_neg hv, hm, if_pos rfl]
      exact ⟨by trivial, lookup_setBlob _ _ _⟩
  · intro rhdr rrows extra hlook hval hext hne hnd hrlen hlrows
    have hrne : ¬ (rhdr = hdr) := by
      intro he
      have h2 : rhdr.length = hdr.length := congrArg List.length he
      rw [hext, List.length_append] at h2
      have : extra.length = 0 := by omega
      exact hne (List.length_eq_zero.mp this)
    have hm : headers_match (rhdr :: rrows) ((hdr :: rows).headD []) = false := by
      simp [headers_match, hhdr, hrne]
    simp only [cc_append_to_cloud, hread, if_neg hlen1, append_data_to_blob, hlook,
               if_neg hval, hm, Bool.false_eq_true, if_false, List.isEmpty_cons,
               Option.getD_none]
    rw [if_pos (all_mem_self _)]
    refine ⟨by trivial, ?_⟩
    rw [lookup_setBlob]
    subst hext
    have hndr : ((rhdr ++ extra) :: rows).headD [] = rhdr ++ extra := rfl
    have hcols : mergedColumns ((rhdr :: rrows).headD [])
        (((rhdr ++ extra) :: rows).headD []) = rhdr ++ extra := by
      rw [hndr]
      exact mergedColumns_extend rhdr extra hnd
    rw [mergeCsv]
    simp only [List.headD_cons, List.tail_cons, Option.getD_none]
    have hcols2 : mergedColumns rhdr (rhdr ++ extra) = rhdr ++ extra :=
      mergedColumns_extend rhdr extra hnd
    rw [hcols2]
    have hmap1 : rrows.map (reindexRow rhdr (rhdr ++ extra))
        = rrows.map (fun r => r ++ List.replicate extra.length "") :=
      List.map_congr_left (fun r hr => reindexRow_extend rhdr extra r hnd (hrlen r hr))
    have hmap2 : rows.map (reindexRow (rhdr ++ extra) (rhdr ++ extra)) = rows := by
      rw [List.map_congr_left (fun r hr => reindexRow_id (rhdr ++ extra) r hnd (hlrows r hr))]
      exact List.map_id _
    rw [hmap1, hmap2]

/-- C2 witness: the header-mismatch example from the spec.  The remote
blob has headers [a,b,c] with one row; the local file has headers
[a,b,c,d] with one row; the rewritten blob holds a single header row,
the pre-existing row with column d blank, and the new row with its d
value. -/
theorem append_to_cloud_spec_witness :
    (cc_append_to_cloud
        { store := [(("jc", "f.csv"), [["a", "b", "c"], ["1", "2", "3"]])], validated := [] }
        { files := [("f.csv", [["a", "b", "c", "d"], ["4", "5", "6", "7"]])] }
        "jc" "f.csv" false none).2.2 = true ∧
    lookupBlob (cc_append_to_cloud
        { store := [(("jc", "f.csv"), [["a", "b", "c"], ["1", "2", "3"]])], validated := [] }
        { files := [("f.csv", [["a", "b", "c", "d"], ["4", "5", "6", "7"]])] }
        "jc" "f.csv" false none).1.store ("jc", "f.csv")
      = some [["a", "b", "c", "d"], ["1", "2", "3", ""], ["4", "5", "6", "7"]] := by
  have h := (append_to_cloud_spec
      { store := [(("jc", "f.csv"), [["a", "b", "c"], ["1", "2", "3"]])], validated := [] }
      { files := [("f.csv", [["a", "b", "c", "d"], ["4", "5", "6", "7"]])] }
      "jc" "f.csv" false ["a", "b", "c", "d"] [["4", "5", "6", "7"]]
      rfl (by decide) (by decide)).2.2
      ["a", "b", "c"] [["1", "2", "3"]] ["d"]
      rfl (by decide) rfl (by decide) (by decide) (by decide) (by decide)
  exact ⟨h.1, h.2.trans (by decide)⟩

end Expidite







